import Mathlib

/-!
Verification of the playback scheduler and stream-resolution cascade of a
per-channel music playback bot (source: `music_bot.py`, `config.py`).

The development is a shallow embedding: every definition below translates a
function or code path of the source.  External effects (subprocess exit codes,
HTTP responses, random shuffles, metadata fetches, the search resolver) are
passed in as explicit oracle values, so each embedded function is a pure,
executable description of what the source does for a given environment.
Fields of the runtime state that no claim touches (the float `volume`, the
`bot`/`guild` handles, the background-task handles) are outside the model.
-/

/-! ### Songs and identity keys

`Song` embeds the `@dataclass Song` of the source (title, url, duration,
requester, source_type, thumbnail).  The extra field `oid` models the Python
`id(song)` object identity, which the source mixes into its prefetch-cache
keys via `f"{song.url}_{id(song)}"`. -/

structure Song where
  title : String
  url : String
  duration : String
  requester : Nat
  source_type : String
  thumbnail : Option String
  oid : Nat
deriving DecidableEq, Repr

/-- The cache key `f"{song.url}_{id(song)}"` of `preload_next_song` /
`play_next`, embedded as the pair of its two components. -/
abbrev SongKey := String × Nat

def songKey (s : Song) : SongKey := (s.url, s.oid)

/-- A resolved audio handle: either a downloaded artifact played from a file
(`discord.FFmpegPCMAudio(filename)`, primary yt-dlp path) or a direct proxy
stream URL played with reconnect options (Piped/Invidious path). -/
inductive StreamHandle where
  | file (path : String)
  | proxy (streamUrl : String)
deriving DecidableEq, Repr

/-! ### Provider cascade (`get_youtube_stream_piped`, `get_youtube_stream_invidious`,
`YTDLSource.from_url`)

Each HTTP outcome of each HTTP instance is an oracle value: `err` models any raised
exception (network error, timeout, malformed JSON payload), `ok status body`
models a completed response with its HTTP status and decoded body. -/

/-- One entry of the Piped `audioStreams` array: `x.get("bitrate", 0)` and
`x.get("url")`. -/
structure AudioStream where
  bitrate : Nat
  url : Option String
deriving DecidableEq, Repr

/-- One entry of the Invidious `adaptiveFormats` array: `f.get("type", "")`,
`f.get("bitrate", 0)`, `f.get("url")`. -/
structure AdaptiveFormat where
  typ : String
  bitrate : Nat
  url : Option String
deriving DecidableEq, Repr

/-- Character-list version of the Python `str.startswith` check (structural
recursion, so that concrete instances evaluate): `leadsWith pre cs` is true
iff `cs` starts with `pre`. -/
def leadsWith : List Char → List Char → Bool
  | [], _ => true
  | _ :: _, [] => false
  | a :: pre, c :: cs => a == c && leadsWith pre cs

/-- Embeds `f.get("type", "").startswith("audio")`. -/
def strStartsWith (pre s : String) : Bool :=
  leadsWith pre.data s.data

/-- Outcome of one instance request inside the provider loops. -/
inductive InstanceResult (α : Type) where
  | err : InstanceResult α
  | ok (status : Nat) (body : List α) : InstanceResult α
deriving DecidableEq, Repr

/-- the Python `max(xs, key=...)` over a nonempty list: keeps the earlier
element on ties, replaces only on a strictly larger key. -/
def maxByBitrate (bitrate : α → Nat) (first : α) (rest : List α) : α :=
  rest.foldl (fun acc x => if bitrate x > bitrate acc then x else acc) first

/-- Embeds `get_youtube_stream_piped`: walk the instance list in order; on a 200
response pick the max-bitrate audio stream and return its URL if present;
any error, non-200 status, empty `audioStreams`, or absent `url` moves on to
the next instance; `None` when every instance fails. -/
def get_youtube_stream_piped : List (InstanceResult AudioStream) → Option String
  | [] => none
  | InstanceResult.err :: rest => get_youtube_stream_piped rest
  | InstanceResult.ok status body :: rest =>
    if status = 200 then
      match body with
      | [] => get_youtube_stream_piped rest
      | s :: more =>
        match (maxByBitrate AudioStream.bitrate s more).url with
        | some u => some u
        | none => get_youtube_stream_piped rest
    else get_youtube_stream_piped rest

/-- Embeds `get_youtube_stream_invidious`: same loop shape as Piped, except the body
is first filtered to the formats whose `type` starts with `"audio"`. -/
def get_youtube_stream_invidious : List (InstanceResult AdaptiveFormat) → Option String
  | [] => none
  | InstanceResult.err :: rest => get_youtube_stream_invidious rest
  | InstanceResult.ok status body :: rest =>
    if status = 200 then
      match body.filter (fun f => strStartsWith "audio" f.typ) with
      | [] => get_youtube_stream_invidious rest
      | s :: more =>
        match (maxByBitrate AdaptiveFormat.bitrate s more).url with
        | some u => some u
        | none => get_youtube_stream_invidious rest
    else get_youtube_stream_invidious rest

/-- Environment of the primary yt-dlp stage of `YTDLSource.from_url`:
the subprocess exit code (`result.returncode`, 60s timeout — a timeout raises
and is modelled by a nonzero code), the files matched by
`glob.glob(f"/tmp/ytdl_{video_id}.*")`, and whether the follow-up
`ytdl_search.extract_info` metadata call produced truthy data (after the
`entries` unwrap) without raising. -/
structure PrimaryEnv where
  returncode : Int
  matchingFiles : List String
  metadataOk : Bool
deriving DecidableEq, Repr

/-- The primary stage returns a source iff the subprocess exited 0, a
downloaded file was found, and the metadata fetch yielded truthy data;
on any other outcome control falls through to the proxy fallback. -/
def primarySucceeds (p : PrimaryEnv) : Bool :=
  p.returncode == 0 && !p.matchingFiles.isEmpty && p.metadataOk

/-- Full oracle environment of one `YTDLSource.from_url` call.
`videoIdMatch` is whether the regex `(?:v=|\/)([0-9A-Za-z_-]{11}).*` matched
the locator; `proxyMetadataOk` is whether the metadata fetch inside the proxy
branch produced truthy data without raising. -/
structure ResolveEnv where
  videoIdMatch : Bool
  primary : PrimaryEnv
  pipedResponses : List (InstanceResult AudioStream)
  invidiousResponses : List (InstanceResult AdaptiveFormat)
  proxyMetadataOk : Bool
deriving DecidableEq, Repr

/-- The cascade stages of `YTDLSource.from_url`, in source order. -/
inductive Stage where
  | primary
  | piped
  | invidious
deriving DecidableEq, Repr

/-- Embeds `YTDLSource.from_url`: the primary yt-dlp stage first; if it fails and a
video id was extracted, Piped then Invidious; the final `raise` is modelled
by `none`.  The second component records which stages were attempted. -/
def from_url (env : ResolveEnv) : Option StreamHandle × List Stage :=
  if primarySucceeds env.primary then
    (some (StreamHandle.file (env.primary.matchingFiles.headD "")), [Stage.primary])
  else if env.videoIdMatch then
    match get_youtube_stream_piped env.pipedResponses with
    | some u =>
      (if env.proxyMetadataOk then some (StreamHandle.proxy u) else none,
       [Stage.primary, Stage.piped])
    | none =>
      match get_youtube_stream_invidious env.invidiousResponses with
      | some u =>
        (if env.proxyMetadataOk then some (StreamHandle.proxy u) else none,
         [Stage.primary, Stage.piped, Stage.invidious])
      | none => (none, [Stage.primary, Stage.piped, Stage.invidious])
  else (none, [Stage.primary])

/-- A Piped instance outcome that the source treats as a provider-level
failure: an exception, a non-200 status, an empty `audioStreams`, or a best
entry without a `url`. -/
def pipedInstanceFails : InstanceResult AudioStream → Bool
  | InstanceResult.err => true
  | InstanceResult.ok status body =>
    status != 200 ||
      (match body with
       | [] => true
       | s :: more => (maxByBitrate AudioStream.bitrate s more).url == none)

/-- An Invidious instance outcome that the source treats as a provider-level
failure. -/
def invidiousInstanceFails : InstanceResult AdaptiveFormat → Bool
  | InstanceResult.err => true
  | InstanceResult.ok status body =>
    status != 200 ||
      (match body.filter (fun f => strStartsWith "audio" f.typ) with
       | [] => true
       | s :: more => (maxByBitrate AdaptiveFormat.bitrate s more).url == none)

/-! ### Download cache cleanup (`cleanup_old_downloads`)

A cache file is described by its name and modification time; the oracle
`deleteOk` tells whether `os.remove` on a given name succeeds (the source
wraps each deletion in `try`/`except` and continues on failure). -/

structure CacheFile where
  name : String
  mtime : Nat
deriving DecidableEq, Repr

def MAX_CACHED_SONGS : Nat := 3

/-- Embeds `files.sort(key=lambda x: os.path.getmtime(x))`: sort ascending by
modification time. -/
def mtimeLE (a b : CacheFile) : Prop := a.mtime ≤ b.mtime

instance : DecidableRel mtimeLE := fun a b => Nat.decLe a.mtime b.mtime

instance : IsTotal CacheFile mtimeLE := ⟨fun a b => Nat.le_total a.mtime b.mtime⟩

instance : IsTrans CacheFile mtimeLE := ⟨fun _ _ _ h1 h2 => Nat.le_trans h1 h2⟩

/-- The slice `files[:len(files) - MAX_CACHED_SONGS]` of the mtime-sorted
listing: the deletion candidates, oldest first. -/
def evictionCandidates (files : List CacheFile) : List CacheFile :=
  (files.insertionSort mtimeLE).take (files.length - MAX_CACHED_SONGS)

/-- The files the retention policy intends to keep: the
`MAX_CACHED_SONGS` most recently modified ones. -/
def retainedFiles (files : List CacheFile) : List CacheFile :=
  (files.insertionSort mtimeLE).drop (files.length - MAX_CACHED_SONGS)

/-- Embeds `cleanup_old_downloads`: when more than `MAX_CACHED_SONGS` files exist,
delete the oldest ones one by one, each deletion best-effort; the result is
the set of files still present in the directory afterwards (the retained ones
plus any whose deletion failed — directory order is immaterial). -/
def cleanup_old_downloads (deleteOk : String → Bool) (files : List CacheFile) :
    List CacheFile :=
  if files.length > MAX_CACHED_SONGS then
    retainedFiles files ++ (evictionCandidates files).filter (fun f => !deleteOk f.name)
  else files

/-! ### Per-guild player state (`MusicPlayer`) and user commands (`MusicCog`)

The prefetch cache `preloaded_sources` is a Python dict keyed by
`f"{song.url}_{id(song)}"`; it is embedded as an association list with
dict-assignment semantics (`dictInsert` replaces the value of an existing
key in place, otherwise appends, matching dict insertion order). -/

def dictInsert (k : SongKey) (v : StreamHandle) :
    List (SongKey × StreamHandle) → List (SongKey × StreamHandle)
  | [] => [(k, v)]
  | (k0, v0) :: rest =>
    if k0 = k then (k0, v) :: rest else (k0, v0) :: dictInsert k v rest

/-- One entry of a pending YouTube playlist (`playlist["entries"][idx]`),
as read by `load_next_from_playlist`: `entry.get("id")`, `entry.get("title",
"Unknown")`, `entry.get("duration", 0)`, `entry.get("webpage_url")`,
`entry.get("url")`, `entry.get("thumbnail")`. -/
structure YtEntry where
  id : String
  title : Option String
  durationSec : Nat
  webpage_url : Option String
  urlField : Option String
  thumbnail : Option String
deriving DecidableEq, Repr

/-- A Spotify track as used by the playlist paths: `track["name"]` (empty
string models a falsy name), `track["artists"][0]["name"]`, and the album
image URL used for the thumbnail. -/
structure SpTrack where
  name : String
  artist : String
  thumb : Option String
deriving DecidableEq, Repr

/-- A Spotify playlist item: `item.get("track")` may be absent. -/
structure SpItem where
  track : Option SpTrack
deriving DecidableEq, Repr

/-- The `pending_playlist` dict built for just-in-time loading: a Spotify
playlist carries `tracks` (items), a Spotify album carries
`(track, artist_name)` pairs, a YouTube playlist carries `entries` (which
may contain null placeholders); `current_index` is the next entry to load.
In the current source no code path ever assigns a non-`None`
`pending_playlist` (only `None` at lines 502, 563, 737, 767), so this
structure is populated by no reachable execution. -/
structure PendingPlaylist where
  is_spotify : Bool
  is_album : Bool
  sp_items : List SpItem
  sp_album_tracks : List (SpTrack × String)
  entries : List (Option YtEntry)
  current_index : Nat
  requester : Nat
deriving DecidableEq, Repr

/-- The fields of `MusicPlayer` that the queue/cache/loop claims concern.
`loop` is the repeat-song flag, `loop_queue` the repeat-queue flag. -/
structure PlayerState where
  queue : List Song
  current : Option Song
  loop : Bool
  loop_queue : Bool
  pending_playlist : Option PendingPlaylist
  preloaded_sources : List (SongKey × StreamHandle)
deriving DecidableEq, Repr

/-- Embeds `format_duration`: zero (or missing) seconds renders as `"Unknown"`,
otherwise `h:mm:ss` or `m:ss`. -/
def pad2 (n : Nat) : String :=
  if n < 10 then "0" ++ toString n else toString n

def format_duration (seconds : Nat) : String :=
  if seconds = 0 then "Unknown"
  else
    let hours := seconds / 3600
    let remainder := seconds % 3600
    let minutes := remainder / 60
    let secs := remainder % 60
    if hours ≠ 0 then
      toString hours ++ ":" ++ pad2 minutes ++ ":" ++ pad2 secs
    else
      toString minutes ++ ":" ++ pad2 secs

/-- Embeds `entry.get("webpage_url") or entry.get("url") or
f"https://www.youtube.com/watch?v={video_id}"`. -/
def ytEntryUrl (e : YtEntry) : String :=
  match e.webpage_url with
  | some u => u
  | none =>
    match e.urlField with
    | some u => u
    | none => "https://www.youtube.com/watch?v=" ++ e.id

/-- The `Song(...)` built from one YouTube playlist entry (identical in
`load_next_from_playlist` and `process_youtube_playlist_fast`).  Allocation
identity (`oid`) is left 0: no claim consults the identity of
playlist-built songs. -/
def songOfYtEntry (e : YtEntry) (requester : Nat) : Song :=
  { title := e.title.getD "Unknown"
    url := ytEntryUrl e
    duration := format_duration e.durationSec
    requester := requester
    source_type := "youtube"
    thumbnail := e.thumbnail
    oid := 0 }

/-- The placeholder `Song` built for a Spotify track awaiting its on-demand
YouTube search: title and url carry the `spotify:search:` query marker. -/
def spotifySearchSong (query : String) (requester : Nat) (thumb : Option String) : Song :=
  { title := query
    url := "spotify:search:" ++ query
    duration := "Unknown"
    requester := requester
    source_type := "spotify"
    thumbnail := thumb
    oid := 0 }

/-- Embeds `MusicPlayer.load_next_from_playlist`: load one entry of the pending
playlist into the queue and advance the index; drop the pending playlist
when the index runs past the end; skip (index still advances, queue
unchanged) on a null YouTube entry or a Spotify item without a named track.
`searchResult` is the oracle for the external `process_youtube` search used
by the Spotify branch. -/
def load_next_from_playlist (searchResult : String → Option Song)
    (p : PlayerState) : PlayerState :=
  match p.pending_playlist with
  | none => p
  | some pl =>
    if pl.is_spotify then
      if pl.is_album then
        match pl.sp_album_tracks.get? pl.current_index with
        | none => { p with pending_playlist := none }
        | some (track, artistName) =>
          let query := track.name ++ " " ++ artistName
          let appended :=
            match searchResult query with
            | some song => p.queue ++ [{ song with source_type := "spotify" }]
            | none => p.queue
          { p with queue := appended
                   pending_playlist := some { pl with current_index := pl.current_index + 1 } }
      else
        match pl.sp_items.get? pl.current_index with
        | none => { p with pending_playlist := none }
        | some item =>
          match item.track with
          | none =>
            { p with pending_playlist := some { pl with current_index := pl.current_index + 1 } }
          | some track =>
            if track.name = "" then
              { p with pending_playlist := some { pl with current_index := pl.current_index + 1 } }
            else
              let query := track.name ++ " " ++ track.artist
              let appended :=
                match searchResult query with
                | some song => p.queue ++ [{ song with source_type := "spotify" }]
                | none => p.queue
              { p with queue := appended
                       pending_playlist := some { pl with current_index := pl.current_index + 1 } }
    else
      match pl.entries.get? pl.current_index with
      | none => { p with pending_playlist := none }
      | some none =>
        { p with pending_playlist := some { pl with current_index := pl.current_index + 1 } }
      | some (some e) =>
        { p with queue := p.queue ++ [songOfYtEntry e pl.requester]
                 pending_playlist := some { pl with current_index := pl.current_index + 1 } }

/-- Re-insertion of `current` at the top of `MusicPlayer.play_next`:
`if self.loop and self.current: appendleft(current)` /
`elif self.loop_queue and self.current: append(current)`. -/
def reinsert (p : PlayerState) : List Song :=
  match p.current with
  | some c =>
    if p.loop then c :: p.queue
    else if p.loop_queue then p.queue ++ [c]
    else p.queue
  | none => p.queue

/-- The synchronous queue/current/cache effect of one successful
`MusicPlayer.play_next` call: loop-mode reinsertion; a single
`load_next_from_playlist` await when the queue is empty and a playlist is
pending; if the queue is still empty, go idle (`current = None`, preload
cache cleared); otherwise pop the head into `current` and, when the key of that song is cached, consume it (`preloaded_sources.pop(song_key)`).  The
background tasks play_next spawns (prefetch of the new head, playlist
refill) run later and are modelled as separate transitions. -/
def play_next_step (searchResult : String → Option Song) (p : PlayerState) : PlayerState :=
  let p0 := { p with queue := reinsert p }
  let p1 :=
    if p0.queue.isEmpty && p0.pending_playlist.isSome then
      load_next_from_playlist searchResult p0
    else p0
  match p1.queue with
  | [] => { p1 with current := none, preloaded_sources := [] }
  | c :: rest =>
    { p1 with queue := rest
              current := some c
              preloaded_sources :=
                p1.preloaded_sources.eraseP (fun kv => kv.1 == songKey c) }

/-- The state in which `MusicPlayer.play_next` finds itself when the popped
resolution of the popped song raises (a cache miss followed by `YTDLSource.from_url`
failing): reinsertion and the head pop have happened, `current` holds the
failed song, the cache was not touched, and the `except` branch re-enters
`play_next` on exactly this state.  Iterating this function is therefore the
trajectory of the auto-skip recursion on a queue whose songs all fail. -/
def play_next_fail_entry (searchResult : String → Option Song) (p : PlayerState) : PlayerState :=
  let p0 := { p with queue := reinsert p }
  let p1 :=
    if p0.queue.isEmpty && p0.pending_playlist.isSome then
      load_next_from_playlist searchResult p0
    else p0
  match p1.queue with
  | [] => { p1 with current := none, preloaded_sources := [] }
  | c :: rest => { p1 with queue := rest, current := some c }

/-- Embeds `MusicCog.stop` (the `/stop` slash command): clear queue, current, both
loop flags and the preload cache (`pending_playlist` is not touched by this
command). -/
def stopCmd (p : PlayerState) : PlayerState :=
  { p with queue := []
           current := none
           loop := false
           loop_queue := false
           preloaded_sources := [] }

/-- Embeds `MusicCog.clear`: clear the queue and the preload cache. -/
def clearCmd (p : PlayerState) : PlayerState :=
  { p with queue := [], preloaded_sources := [] }

/-- Embeds `MusicCog.shuffle`: refuse with fewer than two queued songs; otherwise
install the shuffled order (`random.shuffle` is external — the shuffled
list is an oracle argument) and clear the preload cache.  The spawned
re-prefetch task is a later, separate transition. -/
def shuffleCmd (shuffled : List Song) (p : PlayerState) : PlayerState :=
  if p.queue.length < 2 then p
  else { p with queue := shuffled, preloaded_sources := [] }

/-- Embeds `MusicCog.remove`: a 1-based position outside `1..len(queue)` is
rejected with an error message and no state change; otherwise
`queue_list.pop(position - 1)` removes exactly that song.  The second
component is the removed song reported back to the user. -/
def removeCmd (position : Int) (p : PlayerState) : PlayerState × Option Song :=
  if position < 1 ∨ position > (p.queue.length : Int) then (p, none)
  else
    let idx := (position - 1).toNat
    ({ p with queue := p.queue.eraseIdx idx }, p.queue.get? idx)

/-- The pending half of an in-flight `MusicPlayer.preload_next_song` task:
the cache key it computed from the queue head before suspending on the
stream resolution. -/
structure PreloadTask where
  key : SongKey
deriving DecidableEq, Repr

/-- The synchronous prefix of `MusicPlayer.preload_next_song`, up to the
suspension on `YTDLSource.from_url`: nothing to do on an empty queue, an
already-cached head, or a local-file head; otherwise the task suspends
holding the key of the head song.  (For a `spotify:search:` head the source
first mutates the song in place via the external search; the key it caches
under was computed before that mutation.) -/
def preload_begin (p : PlayerState) : Option PreloadTask :=
  match p.queue with
  | [] => none
  | next :: _ =>
    let key := songKey next
    if p.preloaded_sources.any (fun kv => kv.1 == key) then none
    else if next.source_type == "local" then none
    else some { key := key }

/-- The completion of an in-flight prefetch whose resolution succeeded with
handle `h`: `self.preloaded_sources[song_key] = source` — an unconditional
dict insert; the source performs no check of the key against the current
queue head before inserting. -/
def preload_complete (t : PreloadTask) (h : StreamHandle) (p : PlayerState) : PlayerState :=
  { p with preloaded_sources := dictInsert t.key h p.preloaded_sources }

/-! ### Eager playlist expansion (`process_youtube_playlist_fast`,
`process_spotify_playlist_fast`) -/

/-- Embeds `process_youtube_playlist_fast`, entries path: build a `Song` from each
non-null entry of `entries[:50]`. -/
def process_youtube_playlist_fast (entries : List (Option YtEntry)) (requester : Nat) :
    List Song :=
  (entries.take 50).filterMap (fun e? => e?.map (fun e => songOfYtEntry e requester))

/-- Embeds `process_spotify_playlist_fast`, playlist branch: for each item of
`all_tracks[:50]` whose track exists and has a (truthy) name, queue a
`spotify:search:` placeholder song. -/
def process_spotify_playlist_fast_tracks (items : List SpItem) (requester : Nat) :
    List Song :=
  (items.take 50).filterMap (fun item =>
    match item.track with
    | none => none
    | some track =>
      if track.name = "" then none
      else some (spotifySearchSong (track.name ++ " " ++ track.artist) requester track.thumb))

/-- Embeds `process_spotify_playlist_fast`, album branch: a placeholder song for
each of `album["tracks"]["items"][:50]`, using the artist name of the album and
cover image. -/
def process_spotify_playlist_fast_album (tracks : List SpTrack) (artistName : String)
    (albumThumb : Option String) (requester : Nat) : List Song :=
  (tracks.take 50).map (fun track =>
    spotifySearchSong (track.name ++ " " ++ artistName) requester albumThumb)

/-- Membership-style read of the prefetch dict: the Python `dict.get` /
`key in dict` semantics over the association-list embedding. -/
def dictGet (k : SongKey) : List (SongKey × StreamHandle) → Option StreamHandle
  | [] => none
  | (k0, v0) :: rest => if k0 = k then some v0 else dictGet k rest

/-! ## Claims -/

/-- C1: stream resolution tries the stages strictly in order — the yt-dlp
subprocess first, then the Piped instance list, then the Invidious instance
list — and returns the handle of the first stage that succeeds (success of a
proxy stage includes its follow-up metadata fetch, which the source requires
before returning); the returned handle depends only on the succeeding stage,
and a provider-level failure (exception/timeout, non-200 status, malformed or
empty payload, absent audio URL) only advances to the next instance. -/
theorem resolution_cascade_order (env : ResolveEnv) :
    (primarySucceeds env.primary = true →
      (from_url env).1 = some (StreamHandle.file (env.primary.matchingFiles.headD ""))) ∧
    (primarySucceeds env.primary = false → env.videoIdMatch = true →
      env.proxyMetadataOk = true →
      ∀ u, get_youtube_stream_piped env.pipedResponses = some u →
        (from_url env).1 = some (StreamHandle.proxy u)) ∧
    (primarySucceeds env.primary = false → env.videoIdMatch = true →
      env.proxyMetadataOk = true →
      get_youtube_stream_piped env.pipedResponses = none →
      ∀ u, get_youtube_stream_invidious env.invidiousResponses = some u →
        (from_url env).1 = some (StreamHandle.proxy u)) ∧
    (∀ (r : InstanceResult AudioStream) rest, pipedInstanceFails r = true →
      get_youtube_stream_piped (r :: rest) = get_youtube_stream_piped rest) ∧
    (∀ (r : InstanceResult AdaptiveFormat) rest, invidiousInstanceFails r = true →
      get_youtube_stream_invidious (r :: rest) = get_youtube_stream_invidious rest) := by
  refine ⟨fun h1 => ?_, fun h1 h2 h3 u hu => ?_, fun h1 h2 h3 hp u hu => ?_,
    fun r rest hr => ?_, fun r rest hr => ?_⟩
  · simp [from_url, h1]
  · simp [from_url, h1, h2, h3, hu]
  · simp [from_url, h1, h2, h3, hp, hu]
  · cases r with
    | err => rfl
    | ok status body =>
      by_cases hs : status = 200
      · subst hs
        simp only [pipedInstanceFails] at hr
        cases body with
        | nil => simp [get_youtube_stream_piped]
        | cons s more =>
          simp only [bne_self_eq_false, Bool.false_or, beq_iff_eq] at hr
          simp [get_youtube_stream_piped, hr]
      · simp [get_youtube_stream_piped, hs]
  · cases r with
    | err => rfl
    | ok status body =>
      by_cases hs : status = 200
      · subst hs
        simp only [invidiousInstanceFails] at hr
        cases hfl : body.filter (fun f => strStartsWith "audio" f.typ) with
        | nil => simp [get_youtube_stream_invidious, hfl]
        | cons s more =>
          rw [hfl] at hr
          simp only [bne_self_eq_false, Bool.false_or, beq_iff_eq] at hr
          simp [get_youtube_stream_invidious, hfl, hr]
      · simp [get_youtube_stream_invidious, hs]

/-- Concrete environment where the subprocess fails, every Piped instance
fails for a different reason, and the second Invidious instance succeeds. -/
def envW : ResolveEnv :=
  { videoIdMatch := true
    primary := { returncode := 1, matchingFiles := [], metadataOk := false }
    pipedResponses :=
      [InstanceResult.err,
       InstanceResult.ok 404 [],
       InstanceResult.ok 200 [{ bitrate := 96, url := none }]]
    invidiousResponses :=
      [InstanceResult.err,
       InstanceResult.ok 200
         [{ typ := "video/mp4", bitrate := 500, url := some "V" },
          { typ := "audio/mp4", bitrate := 128, url := some "U" }]]
    proxyMetadataOk := true }

/-- Witness for C1: on `envW` the first two stages fail and the handle is the
one delivered by the Invidious stage. -/
theorem resolution_cascade_order_witness :
    (primarySucceeds envW.primary = false ∧ envW.videoIdMatch = true ∧
      envW.proxyMetadataOk = true ∧
      get_youtube_stream_piped envW.pipedResponses = none ∧
      get_youtube_stream_invidious envW.invidiousResponses = some "U") ∧
    (from_url envW).1 = some (StreamHandle.proxy "U") :=
  ⟨⟨rfl, rfl, rfl, rfl, rfl⟩,
   (resolution_cascade_order envW).2.2.1 rfl rfl rfl rfl "U" rfl⟩

/-- C9: when the locator yields no extractable video identifier
(`videoIdMatch = false`) and the primary downloader stage fails, resolution
fails immediately and the attempt trace shows that neither Piped nor
Invidious was contacted. -/
theorem no_identifier_fails_without_proxies (env : ResolveEnv)
    (hid : env.videoIdMatch = false) (hp : primarySucceeds env.primary = false) :
    (from_url env).1 = none ∧ (from_url env).2 = [Stage.primary] := by
  simp [from_url, hid, hp]

/-- Concrete environment with no extractable identifier but with provider
instances that would succeed if they were (wrongly) consulted. -/
def env9 : ResolveEnv :=
  { videoIdMatch := false
    primary := { returncode := 0, matchingFiles := [], metadataOk := true }
    pipedResponses := [InstanceResult.ok 200 [{ bitrate := 128, url := some "P" }]]
    invidiousResponses :=
      [InstanceResult.ok 200 [{ typ := "audio/webm", bitrate := 160, url := some "I" }]]
    proxyMetadataOk := true }

/-- Witness for C9: `env9` has no identifier and a failing primary stage
(exit 0 but no downloaded artifact), and resolution fails with only the
primary stage attempted. -/
theorem no_identifier_fails_without_proxies_witness :
    (env9.videoIdMatch = false ∧ primarySucceeds env9.primary = false) ∧
    (from_url env9).1 = none ∧ (from_url env9).2 = [Stage.primary] :=
  ⟨⟨rfl, rfl⟩, no_identifier_fails_without_proxies env9 rfl rfl⟩

/-- The sorted listing is a permutation split into candidates and survivors. -/
theorem evict_retain_split (files : List CacheFile) :
    evictionCandidates files ++ retainedFiles files = files.insertionSort mtimeLE :=
  List.take_append_drop _ _

/-- Every eviction candidate is one of the directory files. -/
theorem evictionCandidates_subset (files : List CacheFile) :
    ∀ f ∈ evictionCandidates files, f ∈ files := by
  intro f hf
  have h1 : f ∈ files.insertionSort mtimeLE := List.mem_of_mem_take hf
  exact (List.mem_insertionSort mtimeLE).1 h1

/-- C8: after every successful download, `cleanup_old_downloads` leaves at
most `MAX_CACHED_SONGS = 3` artifacts when all deletions succeed; whenever
eviction happens, every evicted candidate is at least as old (by mtime) as
every retained artifact; and an individual deletion failure is not fatal —
the remaining count is exactly the 3 retained files plus only those
candidates whose own deletion failed, so other deletions still happen. -/
theorem cleanup_retention (files : List CacheFile) (deleteOk : String → Bool) :
    ((∀ f ∈ files, deleteOk f.name = true) →
      (cleanup_old_downloads deleteOk files).length ≤ MAX_CACHED_SONGS) ∧
    (∀ f ∈ evictionCandidates files, ∀ g ∈ retainedFiles files, f.mtime ≤ g.mtime) ∧
    (files.length > MAX_CACHED_SONGS →
      (cleanup_old_downloads deleteOk files).length =
        MAX_CACHED_SONGS +
          ((evictionCandidates files).filter (fun f => !deleteOk f.name)).length) := by
  have hretlen : files.length > MAX_CACHED_SONGS →
      (retainedFiles files).length = MAX_CACHED_SONGS := by
    intro hgt
    have hslen : (files.insertionSort mtimeLE).length = files.length :=
      List.length_insertionSort mtimeLE files
    simp only [retainedFiles, List.length_drop, hslen]
    omega
  refine ⟨fun hall => ?_, ?_, fun hgt => ?_⟩
  · by_cases hgt : files.length > MAX_CACHED_SONGS
    · have hfil : (evictionCandidates files).filter (fun f => !deleteOk f.name) = [] := by
        rw [List.filter_eq_nil_iff]
        intro a ha
        simp [hall a (evictionCandidates_subset files a ha)]
      rw [cleanup_old_downloads, if_pos hgt, List.length_append, hfil, hretlen hgt]
      simp
    · rw [cleanup_old_downloads, if_neg hgt]
      omega
  · intro f hf g hg
    have hs : List.Pairwise mtimeLE (files.insertionSort mtimeLE) :=
      List.sorted_insertionSort mtimeLE files
    rw [← evict_retain_split files, List.pairwise_append] at hs
    exact hs.2.2 f hf g hg
  · rw [cleanup_old_downloads, if_pos hgt, List.length_append, hretlen hgt]

/-- Concrete five-artifact directory for the C8 witness. -/
def filesW : List CacheFile :=
  [{ name := "/tmp/ytdl_a.mp3", mtime := 5 },
   { name := "/tmp/ytdl_b.mp3", mtime := 1 },
   { name := "/tmp/ytdl_c.mp3", mtime := 9 },
   { name := "/tmp/ytdl_d.mp3", mtime := 3 },
   { name := "/tmp/ytdl_e.mp3", mtime := 7 }]

/-- Witness for C8: with five artifacts and fully successful deletion, three
remain, and the oldest artifact is older than a retained one. -/
theorem cleanup_retention_witness :
    ((∀ f ∈ filesW, (fun _ => true) f.name = true) ∧
      (cleanup_old_downloads (fun _ => true) filesW).length ≤ MAX_CACHED_SONGS) ∧
    (({ name := "/tmp/ytdl_b.mp3", mtime := 1 } : CacheFile) ∈ evictionCandidates filesW ∧
     ({ name := "/tmp/ytdl_c.mp3", mtime := 9 } : CacheFile) ∈ retainedFiles filesW ∧
     (1 : Nat) ≤ 9) ∧
    (filesW.length > MAX_CACHED_SONGS ∧
      (cleanup_old_downloads (fun _ => true) filesW).length =
        MAX_CACHED_SONGS +
          ((evictionCandidates filesW).filter (fun f => !(fun _ => true) f.name)).length) :=
  ⟨⟨fun f _ => rfl, (cleanup_retention filesW (fun _ => true)).1 (fun f _ => rfl)⟩,
   ⟨by decide, by decide,
    (cleanup_retention filesW (fun _ => true)).2.1
      { name := "/tmp/ytdl_b.mp3", mtime := 1 } (by decide)
      { name := "/tmp/ytdl_c.mp3", mtime := 9 } (by decide)⟩,
   ⟨by decide, (cleanup_retention filesW (fun _ => true)).2.2 (by decide)⟩⟩

/-- C10: `remove` with a position below 1 or above the queue length reports
an error and leaves the player state completely unchanged; with a valid
1-based position it removes exactly the song at that position (queue becomes
the prefix before it plus the suffix after it, and its length drops by one),
reports that song back, and touches nothing else: current song, loop flags,
pending playlist and prefetch cache are untouched. -/
theorem remove_position_spec (position : Int) (p : PlayerState) :
    ((position < 1 ∨ position > (p.queue.length : Int)) →
      removeCmd position p = (p, none)) ∧
    (1 ≤ position → position ≤ (p.queue.length : Int) →
      (removeCmd position p).1.queue =
          p.queue.take (position - 1).toNat ++ p.queue.drop ((position - 1).toNat + 1) ∧
      (removeCmd position p).1.queue.length + 1 = p.queue.length ∧
      (removeCmd position p).2 = p.queue.get? (position - 1).toNat ∧
      (removeCmd position p).1.current = p.current ∧
      (removeCmd position p).1.loop = p.loop ∧
      (removeCmd position p).1.loop_queue = p.loop_queue ∧
      (removeCmd position p).1.pending_playlist = p.pending_playlist ∧
      (removeCmd position p).1.preloaded_sources = p.preloaded_sources) := by
  constructor
  · intro h
    rw [removeCmd, if_pos h]
  · intro h1 h2
    have hno : ¬(position < 1 ∨ position > (p.queue.length : Int)) := by omega
    have hidx : (position - 1).toNat < p.queue.length := by omega
    rw [removeCmd, if_neg hno]
    refine ⟨?_, ?_, rfl, rfl, rfl, rfl, rfl, rfl⟩
    · exact List.eraseIdx_eq_take_drop_succ p.queue (position - 1).toNat
    · rw [List.length_eraseIdx_of_lt hidx]
      omega

/-- Concrete songs reused across the player-state witnesses; the `oid`
fields model the distinct Python object identities. -/
def songA : Song :=
  { title := "A", url := "https://www.youtube.com/watch?v=aaaaaaaaaaa",
    duration := "1:00", requester := 1, source_type := "youtube",
    thumbnail := none, oid := 10 }

def songB : Song :=
  { title := "B", url := "https://www.youtube.com/watch?v=bbbbbbbbbbb",
    duration := "2:00", requester := 1, source_type := "youtube",
    thumbnail := none, oid := 11 }

def songC : Song :=
  { title := "C", url := "https://www.youtube.com/watch?v=ccccccccccc",
    duration := "3:00", requester := 2, source_type := "youtube",
    thumbnail := none, oid := 12 }

def handleA : StreamHandle := StreamHandle.proxy "streamA"

def handleB : StreamHandle := StreamHandle.proxy "streamB"

/-- Three-song player used by the C10 witness. -/
def p10 : PlayerState :=
  { queue := [songA, songB, songC], current := none, loop := false,
    loop_queue := false, pending_playlist := none, preloaded_sources := [] }

/-- Witness for C10: position 5 on a three-song queue is rejected without a
state change; position 2 removes exactly `songB` and keeps the rest in
order. -/
theorem remove_position_spec_witness :
    removeCmd 5 p10 = (p10, none) ∧
    (removeCmd 2 p10).1.queue =
        p10.queue.take ((2 : Int) - 1).toNat ++ p10.queue.drop (((2 : Int) - 1).toNat + 1) ∧
    (removeCmd 2 p10).2 = p10.queue.get? ((2 : Int) - 1).toNat :=
  ⟨(remove_position_spec 5 p10).1 (Or.inr (by decide)),
   ((remove_position_spec 2 p10).2 (by decide) (by decide)).1,
   ((remove_position_spec 2 p10).2 (by decide) (by decide)).2.2.1⟩

/-- The single always-failing song of the C2 scenario. -/
def brokenSong : Song :=
  { title := "always fails", url := "https://www.youtube.com/watch?v=ddddddddddd",
    duration := "3:33", requester := 1, source_type := "youtube",
    thumbnail := none, oid := 1 }

/-- Player state mid-playback of `brokenSong` with repeat-song active: the
queue is empty because the repeating current song only re-enters it inside
`play_next`. -/
def brokenState : PlayerState :=
  { queue := [], current := some brokenSong, loop := true, loop_queue := false,
    pending_playlist := none, preloaded_sources := [] }

/-- C2 (refuted by the code): `play_next` has no retry-skip counter at all —
with repeat-song active and a song whose resolution always fails, the
failure handler re-enters `play_next` on exactly the same state, so the
auto-skip recursion is a fixpoint: after any number of consecutive
resolution failures the scheduler is still `playing`-side with the same
current song, never transitions to idle, and never stops recursing. -/
theorem autoskip_recursion_unbounded :
    ∀ n : Nat,
      (play_next_fail_entry (fun _ => none))^[n] brokenState = brokenState ∧
      ((play_next_fail_entry (fun _ => none))^[n] brokenState).current = some brokenSong := by
  have hstep : play_next_fail_entry (fun _ => none) brokenState = brokenState := rfl
  have hiter : ∀ m : Nat,
      (play_next_fail_entry (fun _ => none))^[m] brokenState = brokenState := by
    intro m
    induction m with
    | zero => rfl
    | succ k ih => rw [Function.iterate_succ_apply, hstep, ih]
  intro n
  refine ⟨hiter n, ?_⟩
  rw [hiter n]
  rfl

/-- C6: with repeat-song active, a present current song and no pending
playlist, every `advance()` re-inserts the current song at the head and pops
it right back: after any number `M` of consecutive `play_next` calls the
queue length is unchanged and `current` is the same song. -/
theorem repeat_song_queue_invariant (sr : String → Option Song) (p : PlayerState)
    (M : Nat) (hl : p.loop = true) (hc : p.current.isSome)
    (hpl : p.pending_playlist = none) :
    ((play_next_step sr)^[M] p).queue.length = p.queue.length ∧
    ((play_next_step sr)^[M] p).current = p.current := by
  have step : ∀ q : PlayerState, q.loop = true → q.current.isSome →
      q.pending_playlist = none →
      (play_next_step sr q).queue = q.queue ∧
      (play_next_step sr q).current = q.current ∧
      (play_next_step sr q).loop = true ∧
      (play_next_step sr q).pending_playlist = none := by
    intro q hql hqc hqp
    obtain ⟨c, hc2⟩ := Option.isSome_iff_exists.1 hqc
    simp [play_next_step, reinsert, hc2, hql, hqp]
  have main : ∀ m : Nat,
      ((play_next_step sr)^[m] p).queue = p.queue ∧
      ((play_next_step sr)^[m] p).current = p.current ∧
      ((play_next_step sr)^[m] p).loop = true ∧
      ((play_next_step sr)^[m] p).pending_playlist = none := by
    intro m
    induction m with
    | zero => exact ⟨rfl, rfl, hl, hpl⟩
    | succ k ih =>
      rw [Function.iterate_succ_apply']
      have hcs : ((play_next_step sr)^[k] p).current.isSome := by
        rw [ih.2.1]; exact hc
      obtain ⟨e1, e2, e3, e4⟩ := step _ ih.2.2.1 hcs ih.2.2.2
      exact ⟨e1.trans ih.1, e2.trans ih.2.1, e3, e4⟩
  exact ⟨by rw [(main M).1], (main M).2.1⟩

/-- Player mid-playback of `songC` with two queued songs and repeat-song on,
for the C6 witness. -/
def pC6 : PlayerState :=
  { queue := [songA, songB], current := some songC, loop := true,
    loop_queue := false, pending_playlist := none,
    preloaded_sources := [(songKey songA, handleA)] }

/-- Witness for C6: three consecutive advances on `pC6` keep the queue at
two songs and `current` at `songC`. -/
theorem repeat_song_queue_invariant_witness :
    (pC6.loop = true ∧ pC6.current.isSome ∧ pC6.pending_playlist = none) ∧
    ((play_next_step (fun _ => none))^[3] pC6).queue.length = pC6.queue.length ∧
    ((play_next_step (fun _ => none))^[3] pC6).current = pC6.current :=
  ⟨⟨rfl, rfl, rfl⟩, repeat_song_queue_invariant (fun _ => none) pC6 3 rfl rfl rfl⟩

/-- Player with the prefetch of queue-head `songA` already cached, used to
probe the C3 invariant on `remove`. -/
def pRm : PlayerState :=
  { queue := [songA, songB], current := some songC, loop := false,
    loop_queue := false, pending_playlist := none,
    preloaded_sources := [(songKey songA, handleA)] }

/-- Counterexample to C3: removing position 1 changes the queue head from
`songA` to `songB`, yet `MusicCog.remove` never touches the prefetch cache —
the slot still holds the entry for the removed `songA`, so a present
prefetch entry no longer corresponds to the song at the queue head. -/
theorem remove_head_keeps_prefetch :
    pRm.queue.head? = some songA ∧
    (removeCmd 1 pRm).1.queue.head? = some songB ∧
    (removeCmd 1 pRm).1.preloaded_sources = [(songKey songA, handleA)] := by
  refine ⟨rfl, ?_, ?_⟩ <;> decide

/-- C3 (amended): the prefetch slot is invalidated on `shuffle` and on
`clear`, but explicit removal of a queued song never clears it — `remove`
leaves the cache exactly as it was, so a stale entry (keyed by the removed
song, hence never matching the new head) can survive a head change. -/
theorem prefetch_invalidation_sites (p : PlayerState) (shuffled : List Song)
    (position : Int) :
    (2 ≤ p.queue.length → (shuffleCmd shuffled p).preloaded_sources = []) ∧
    (clearCmd p).preloaded_sources = [] ∧
    (removeCmd position p).1.preloaded_sources = p.preloaded_sources := by
  refine ⟨fun h => ?_, rfl, ?_⟩
  · rw [shuffleCmd, if_neg (by omega)]
  · by_cases hp : position < 1 ∨ position > (p.queue.length : Int) <;>
      simp [removeCmd, hp]

/-- Witness for the amended C3 on the concrete state `pRm`. -/
theorem prefetch_invalidation_sites_witness :
    2 ≤ pRm.queue.length ∧
    (shuffleCmd [songB, songA] pRm).preloaded_sources = [] ∧
    (removeCmd 1 pRm).1.preloaded_sources = pRm.preloaded_sources :=
  ⟨by decide, (prefetch_invalidation_sites pRm [songB, songA] 1).1 (by decide),
   (prefetch_invalidation_sites pRm [songB, songA] 1).2.2⟩

/-- Player about to prefetch its queue head `songA`, for the C4 race. -/
def c4Start : PlayerState :=
  { queue := [songA], current := some songC, loop := false, loop_queue := false,
    pending_playlist := none, preloaded_sources := [] }

/-- C4 (refuted by the code): a prefetch for the queue head `songA` is in
flight (`preload_begin` suspends holding its key); `stop()` then clears the
queue and the cache; when the prefetch completes, `preload_next_song`
performs an unconditional dict insert with no identity check against the
current queue head, so the cache holds the stale handle — it is not empty
after the stop, contradicting the claimed discard. -/
theorem stale_prefetch_inserted_after_stop :
    preload_begin c4Start = some { key := songKey songA } ∧
    (stopCmd c4Start).queue = [] ∧
    (stopCmd c4Start).preloaded_sources = [] ∧
    (preload_complete { key := songKey songA } handleA (stopCmd c4Start)).preloaded_sources
      = [(songKey songA, handleA)] := by
  refine ⟨?_, rfl, rfl, rfl⟩
  decide

/-- Fresh two-song player with an empty cache, start of the C5 scenario. -/
def p5 : PlayerState :=
  { queue := [songA, songB], current := some songC, loop := false,
    loop_queue := false, pending_playlist := none, preloaded_sources := [] }

/-- State after the prefetch of head `songA` completed. -/
def p5a : PlayerState := preload_complete { key := songKey songA } handleA p5

/-- State after `remove 1` dropped `songA` from the queue (cache untouched). -/
def p5b : PlayerState := (removeCmd 1 p5a).1

/-- State after the prefetch of the new head `songB` completed. -/
def p5c : PlayerState := preload_complete { key := songKey songB } handleB p5b

/-- Counterexample to C5: after prefetching `songA`, removing it, and
prefetching the new head `songB`, the prefetch cache holds two entries at
once. -/
theorem prefetch_cache_two_entries :
    preload_begin p5 = some { key := songKey songA } ∧
    p5b.queue = [songB] ∧
    preload_begin p5b = some { key := songKey songB } ∧
    p5c.preloaded_sources.length = 2 := by
  refine ⟨?_, ?_, ?_, ?_⟩ <;> decide

/-- Reading back the key just inserted by a dict assignment hits. -/
theorem dictGet_dictInsert_self (k : SongKey) (v : StreamHandle) :
    ∀ d : List (SongKey × StreamHandle), dictGet k (dictInsert k v d) = some v := by
  intro d
  induction d with
  | nil => simp [dictInsert, dictGet]
  | cons kv rest ih =>
    obtain ⟨k0, v0⟩ := kv
    by_cases h : k0 = k
    · subst h
      simp [dictInsert, dictGet]
    · simp [dictInsert, dictGet, h, ih]

/-- C5 (amended): the cache is a dict that is only guaranteed to hold a
single live entry while the head changes by normal consumption; explicit
removal leaves it untouched, so it can hold two entries (see the
counterexample).  The invalidate-all half of the claim does hold: right
after `clear` or `stop` wipes the cache, `get_or_none` misses for every song
identity, until a completed prefetch re-inserts one, which is then found
under its key. -/
theorem prefetch_cache_after_invalidate_all (p : PlayerState) (t : PreloadTask)
    (h : StreamHandle) (k : SongKey) (position : Int) :
    dictGet k (clearCmd p).preloaded_sources = none ∧
    dictGet k (stopCmd p).preloaded_sources = none ∧
    dictGet t.key (preload_complete t h p).preloaded_sources = some h ∧
    (removeCmd position p).1.preloaded_sources = p.preloaded_sources := by
  refine ⟨rfl, rfl, dictGet_dictInsert_self t.key h p.preloaded_sources, ?_⟩
  by_cases hp : position < 1 ∨ position > (p.queue.length : Int) <;>
    simp [removeCmd, hp]

/-- C7: every eager expansion path appends at most 50 songs from one
playlist or album — `process_youtube_playlist_fast` and both branches of
`process_spotify_playlist_fast` slice the entry list to `[:50]` — and the
lazy per-drain path contributes nothing when no playlist is pending
(`load_next_from_playlist` is the identity then; in the source,
`pending_playlist` is never assigned anything but `None`, so this is the
only reachable lazy behaviour). -/
theorem playlist_expansion_cap (entries : List (Option YtEntry)) (requester : Nat)
    (items : List SpItem) (tracks : List SpTrack) (artistName : String)
    (albumThumb : Option String) (sr : String → Option Song) (p : PlayerState) :
    (process_youtube_playlist_fast entries requester).length ≤ 50 ∧
    (process_spotify_playlist_fast_tracks items requester).length ≤ 50 ∧
    (process_spotify_playlist_fast_album tracks artistName albumThumb requester).length ≤ 50 ∧
    (p.pending_playlist = none → load_next_from_playlist sr p = p) := by
  refine ⟨?_, ?_, ?_, fun h => ?_⟩
  · calc (process_youtube_playlist_fast entries requester).length
        ≤ (entries.take 50).length := List.length_filterMap_le _ _
      _ ≤ 50 := List.length_take_le 50 entries
  · calc (process_spotify_playlist_fast_tracks items requester).length
        ≤ (items.take 50).length := List.length_filterMap_le _ _
      _ ≤ 50 := List.length_take_le 50 items
  · rw [process_spotify_playlist_fast_album, List.length_map]
    exact List.length_take_le 50 tracks
  · rw [load_next_from_playlist, h]

/-- Concrete two-entry playlist listing (with one null placeholder) for the
C7 witness. -/
def entriesW : List (Option YtEntry) :=
  [some { id := "aaaaaaaaaaa", title := some "first", durationSec := 61,
          webpage_url := none, urlField := none, thumbnail := none },
   none]

/-- Idle player with no pending playlist for the C7 witness. -/
def pW : PlayerState :=
  { queue := [], current := none, loop := false, loop_queue := false,
    pending_playlist := none, preloaded_sources := [] }

/-- Witness for C7 at concrete inputs. -/
theorem playlist_expansion_cap_witness :
    pW.pending_playlist = none ∧
    (process_youtube_playlist_fast entriesW 7).length ≤ 50 ∧
    load_next_from_playlist (fun _ => none) pW = pW :=
  ⟨rfl, (playlist_expansion_cap entriesW 7 [] [] "" none (fun _ => none) pW).1,
   (playlist_expansion_cap entriesW 7 [] [] "" none (fun _ => none) pW).2.2.2 rfl⟩
